import Mathlib

/-!
Shallow embedding of `src/app.py` (the code-runner HTTP service): the
`_limit` output-truncation helper, the `runCmd` process executor, the
proxy-variable environment stripping, the `require_api_key` guard, and the
`/run` and `/test` handlers (`run_code`, `run_tests`).  External effects
(subprocess behaviour, file writes) are abstracted by an oracle describing
the outcome of each effectful step, and each handler additionally returns
the trace of filesystem/subprocess effects it performed, so that claims
about side effects and cleanup can be stated.
-/

namespace CodeRunner

/-! ### Configuration constants (src/app.py lines 18-21) -/

def MAX_CODE_CHARS : Nat := 20000

def TIMEOUT_SEC_DEFAULT : Int := 5

def OUTPUT_LIMIT : Nat := 100000

/-! ### Output truncation (`_limit`, src/app.py lines 63-66).
Python `s[:n] + "\n...[truncated]..."` becomes `s.take n ++ truncMarker`.
The `s is None` guard is unreachable for the `str` values produced by
`runCmd` (decode always yields a `str`), so the embedding takes `String`. -/

def truncMarker : String := "\n...[truncated]..."

def _limit (s : String) (n : Nat) : String :=
  if s.length ≤ n then s else s.take n ++ truncMarker

/-! ### Subprocess outcomes.
The behaviour of the external `subprocess.run` call is abstracted as an
outcome value: either the process completed with a real exit status and
fully captured (decoded) streams, or the deadline expired
(`subprocess.TimeoutExpired`, whose `e.stdout` / `e.stderr` may each be
absent), or some other exception was raised while launching/running
(modelled by its message text). -/

inductive ProcOutcome where
  | completed (returncode : Int) (stdout stderr : String)
  | timedOut (partialStdout partialStderr : Option String)
  | launchFailed (msg : String)
  deriving Repr, DecidableEq

def ProcOutcome.isTimeout : ProcOutcome → Bool
  | .timedOut _ _ => true
  | _ => false

structure CmdResult where
  rc : Int
  out : String
  err : String
  deriving Repr, DecidableEq

/-- Embedding of `runCmd` (src/app.py lines 68-92) restricted to its
result mapping: completed runs report the real return code and both decoded
streams; `TimeoutExpired` reports 124, `(e.stdout or b"")` decoded, and the
fixed `"TIMEOUT"` marker (the partial stderr carried by the exception is
never read); any other exception reports 1, empty stdout, and
`"ERROR: {e}"`. -/
def runCmd : ProcOutcome → CmdResult
  | .completed rc out err => ⟨rc, out, err⟩
  | .timedOut pout _ => ⟨124, pout.getD "", "TIMEOUT"⟩
  | .launchFailed msg => ⟨1, "", "ERROR: " ++ msg⟩

/-! ### Child environment construction (src/app.py lines 70-73).
`env = os.environ.copy()` followed by `env.pop(k, None)` for each proxy
variable is modelled as a pure function from the base environment
(an association list with the dict property of unique keys implicit:
removal deletes every binding of the key) to the child environment. -/

abbrev Env := List (String × String)

def proxyVars : List String :=
  ["HTTP_PROXY", "HTTPS_PROXY", "http_proxy", "https_proxy"]

def envPop (e : Env) (k : String) : Env :=
  e.filter (fun p => p.1 ≠ k)

def buildChildEnv (base : Env) : Env :=
  proxyVars.foldl envPop base

def lookupEnv (e : Env) (k : String) : Option String :=
  (e.find? (fun p => p.1 = k)).map (·.2)

/-! ### Authentication guard (`require_api_key`, src/app.py lines 25-31). -/

structure HTTPError where
  status : Nat
  detail : String
  deriving Repr, DecidableEq

/-- Embedding of `require_api_key`: `expected = os.getenv(API_KEY_ENV, "")`
is the configured secret with `""` for an absent variable; an empty
`expected` raises 503, a header different from `expected` (including a
missing header, since Python `None != expected` holds for a non-empty
`expected`) raises 401. -/
def require_api_key (envSecret : Option String) (x_api_key : Option String) :
    Except HTTPError Unit :=
  let expected := envSecret.getD ""
  if expected = "" then
    .error ⟨503, "API not configured"⟩
  else if x_api_key ≠ some expected then
    .error ⟨401, "Invalid or missing API key"⟩
  else
    .ok ()

/-! ### Request/response models (src/app.py lines 35-59).
`timeout_sec` is `Optional[int]` (pydantic permits explicit `null`), with
validated integer values constrained to `1 ≤ v ≤ 20`. -/

structure RunRequest where
  code : String
  stdin : Option String
  timeout_sec : Option Int
  deriving Repr, DecidableEq

structure RunResponse where
  ok : Bool
  stdout : String
  stderr : String
  exit_code : Int
  deriving Repr, DecidableEq

structure TestRequest where
  code : String
  tests : String
  timeout_sec : Option Int
  deriving Repr, DecidableEq

structure TestResponse where
  ok : Bool
  summary : String
  stdout : String
  stderr : String
  exit_code : Int
  deriving Repr, DecidableEq

/-- Python truthiness coalescing `x or d` on an `Optional[int]`:
`None` and `0` are falsy and give the default, every other value is kept. -/
def pyOrInt (v : Option Int) (d : Int) : Int :=
  match v with
  | none => d
  | some x => if x = 0 then d else x

/-- Python truthiness coalescing `x or ""` on an `Optional[str]`. -/
def pyOrStr (v : Option String) : String :=
  match v with
  | none => ""
  | some s => s

/-! ### Handlers as effect-traced functions.
Each handler returns its outcome (a response, an `HTTPException`, or an
exception propagating uncaught out of the handler body) together with the
ordered trace of effects it performed. -/

inductive Effect where
  | mkdtemp (dir : String)
  | writeFile (path : String) (content : String)
  | launch (cmd : List String) (cwd : String) (timeoutSec : Int) (input : String)
  | rmtree (dir : String)
  deriving Repr, DecidableEq

inductive HandlerOutcome (α : Type) where
  | response (resp : α)
  | httpError (e : HTTPError)
  | exn (msg : String)
  deriving Repr, DecidableEq

/-- Oracle for the effectful steps of `run_code`: whether `mkdtemp` raises,
whether the write of `main.py` raises, and the subprocess outcome. -/
structure RunOracle where
  mkdtempFails : Bool
  writeFails : Bool
  outcome : ProcOutcome
  deriving Repr, DecidableEq

/-- Embedding of the `/run` handler `run_code` (src/app.py lines 101-126):
reject oversized code with 413 before any effect; otherwise create the
workspace, try writing `main.py` and running the interpreter, and in all
cases (`finally:`) remove the workspace before the handler returns.
`work` stands for the fresh directory path `tempfile.mkdtemp` returns. -/
def run_code (work : String) (oracle : RunOracle) (req : RunRequest) :
    HandlerOutcome RunResponse × List Effect :=
  if req.code.length > MAX_CODE_CHARS then
    (.httpError ⟨413, "Code too large"⟩, [])
  else if oracle.mkdtempFails then
    (.exn "mkdtemp failed", [])
  else if oracle.writeFails then
    (.exn "write failed", [.mkdtemp work, .rmtree work])
  else
    let t := pyOrInt req.timeout_sec TIMEOUT_SEC_DEFAULT
    let r := runCmd oracle.outcome
    (.response
      { ok := r.rc = 0
        stdout := _limit r.out OUTPUT_LIMIT
        stderr := _limit r.err OUTPUT_LIMIT
        exit_code := r.rc },
     [.mkdtemp work,
      .writeFile (work ++ "/main.py") req.code,
      .launch ["python", "main.py"] work t (pyOrStr req.stdin),
      .rmtree work])

/-- Oracle for the effectful steps of `run_tests`: whether `mkdtemp` raises,
whether either file write raises, and the subprocess outcome. -/
structure TestOracle where
  mkdtempFails : Bool
  writeSolutionFails : Bool
  writeTestsFails : Bool
  outcome : ProcOutcome
  deriving Repr, DecidableEq

/-- Embedding of the `/test` handler `run_tests` (src/app.py lines 128-157):
reject oversized code or tests with 413 before any effect; otherwise create
the workspace, try writing `solution.py` and `test_solution.py` and running
pytest, derive the summary from the exit code, and in all cases remove the
workspace before the handler returns. -/
def run_tests (work : String) (oracle : TestOracle) (req : TestRequest) :
    HandlerOutcome TestResponse × List Effect :=
  if req.code.length > MAX_CODE_CHARS ∨ req.tests.length > MAX_CODE_CHARS then
    (.httpError ⟨413, "Code or tests too large"⟩, [])
  else if oracle.mkdtempFails then
    (.exn "mkdtemp failed", [])
  else if oracle.writeSolutionFails then
    (.exn "write failed", [.mkdtemp work, .rmtree work])
  else if oracle.writeTestsFails then
    (.exn "write failed",
     [.mkdtemp work, .writeFile (work ++ "/solution.py") req.code, .rmtree work])
  else
    let t := pyOrInt req.timeout_sec TIMEOUT_SEC_DEFAULT
    let r := runCmd oracle.outcome
    (.response
      { ok := r.rc = 0
        summary := if r.rc = 0 then "tests passed" else "tests failed"
        stdout := _limit r.out OUTPUT_LIMIT
        stderr := _limit r.err OUTPUT_LIMIT
        exit_code := r.rc },
     [.mkdtemp work,
      .writeFile (work ++ "/solution.py") req.code,
      .writeFile (work ++ "/test_solution.py") req.tests,
      .launch ["pytest", "-q", "--maxfail=1", "--disable-warnings"] work t "",
      .rmtree work])

/-! ### Filesystem interpretation of an effect trace, for cleanup claims. -/

def applyEffect (fs : List String) : Effect → List String
  | .mkdtemp d => d :: fs
  | .rmtree d => fs.filter (· ≠ d)
  | _ => fs

def runEffects (fs : List String) (es : List Effect) : List String :=
  es.foldl applyEffect fs

def launchTimeouts (es : List Effect) : List Int :=
  es.filterMap fun e =>
    match e with
    | .launch _ _ t _ => some t
    | _ => none

/-! ### Helper lemmas -/

theorem lookupEnv_cons (p : String × String) (t : Env) (k : String) :
    lookupEnv (p :: t) k = if p.1 = k then some p.2 else lookupEnv t k := by
  by_cases hp : p.1 = k <;> simp [lookupEnv, List.find?, hp]

theorem envPop_cons (p : String × String) (t : Env) (j : String) :
    envPop (p :: t) j = if p.1 = j then envPop t j else p :: envPop t j := by
  by_cases hp : p.1 = j <;> simp [envPop, List.filter_cons, hp]

theorem lookupEnv_envPop_self (e : Env) (k : String) :
    lookupEnv (envPop e k) k = none := by
  induction e with
  | nil => rfl
  | cons p t ih =>
    rw [envPop_cons]
    by_cases hp : p.1 = k
    · rw [if_pos hp]; exact ih
    · rw [if_neg hp, lookupEnv_cons, if_neg hp]; exact ih

theorem lookupEnv_envPop_ne (e : Env) (k j : String) (h : k ≠ j) :
    lookupEnv (envPop e j) k = lookupEnv e k := by
  induction e with
  | nil => rfl
  | cons p t ih =>
    rw [envPop_cons]
    by_cases hp : p.1 = j
    · have hk : ¬ p.1 = k := by rw [hp]; exact fun hjk => h hjk.symm
      rw [if_pos hp, lookupEnv_cons, if_neg hk]; exact ih
    · rw [if_neg hp, lookupEnv_cons, lookupEnv_cons]
      by_cases hk : p.1 = k
      · rw [if_pos hk, if_pos hk]
      · rw [if_neg hk, if_neg hk]; exact ih

theorem buildChildEnv_eq (base : Env) :
    buildChildEnv base =
      envPop (envPop (envPop (envPop base "HTTP_PROXY") "HTTPS_PROXY")
        "http_proxy") "https_proxy" := rfl

theorem length_take_string (s : String) (n : Nat) :
    (s.take n).length = min n s.length := by
  have h : (s.take n).length = (s.take n).data.length := rfl
  rw [h, String.data_take, List.length_take]
  rfl

theorem not_mem_filter_ne (l : List String) (d : String) :
    d ∉ l.filter (· ≠ d) := by
  intro h
  exact (of_decide_eq_true (List.mem_filter.mp h).2) rfl

theorem run_code_success (work : String) (oracle : RunOracle) (req : RunRequest)
    (h1 : ¬ req.code.length > MAX_CODE_CHARS)
    (h2 : oracle.mkdtempFails = false) (h3 : oracle.writeFails = false) :
    run_code work oracle req =
      (.response
        { ok := (runCmd oracle.outcome).rc = 0
          stdout := _limit (runCmd oracle.outcome).out OUTPUT_LIMIT
          stderr := _limit (runCmd oracle.outcome).err OUTPUT_LIMIT
          exit_code := (runCmd oracle.outcome).rc },
       [.mkdtemp work,
        .writeFile (work ++ "/main.py") req.code,
        .launch ["python", "main.py"] work
          (pyOrInt req.timeout_sec TIMEOUT_SEC_DEFAULT) (pyOrStr req.stdin),
        .rmtree work]) := by
  simp [run_code, h1, h2, h3]

theorem run_tests_success (work : String) (oracle : TestOracle) (req : TestRequest)
    (h1 : ¬ (req.code.length > MAX_CODE_CHARS ∨ req.tests.length > MAX_CODE_CHARS))
    (h2 : oracle.mkdtempFails = false) (h3 : oracle.writeSolutionFails = false)
    (h4 : oracle.writeTestsFails = false) :
    run_tests work oracle req =
      (.response
        { ok := (runCmd oracle.outcome).rc = 0
          summary :=
            if (runCmd oracle.outcome).rc = 0 then "tests passed" else "tests failed"
          stdout := _limit (runCmd oracle.outcome).out OUTPUT_LIMIT
          stderr := _limit (runCmd oracle.outcome).err OUTPUT_LIMIT
          exit_code := (runCmd oracle.outcome).rc },
       [.mkdtemp work,
        .writeFile (work ++ "/solution.py") req.code,
        .writeFile (work ++ "/test_solution.py") req.tests,
        .launch ["pytest", "-q", "--maxfail=1", "--disable-warnings"] work
          (pyOrInt req.timeout_sec TIMEOUT_SEC_DEFAULT) "",
        .rmtree work]) := by
  simp [run_tests, h1, h2, h3, h4]

theorem run_code_response_inv (work : String) (oracle : RunOracle)
    (req : RunRequest) (resp : RunResponse)
    (h : (run_code work oracle req).1 = .response resp) :
    resp =
      { ok := (runCmd oracle.outcome).rc = 0
        stdout := _limit (runCmd oracle.outcome).out OUTPUT_LIMIT
        stderr := _limit (runCmd oracle.outcome).err OUTPUT_LIMIT
        exit_code := (runCmd oracle.outcome).rc } := by
  by_cases h1 : req.code.length > MAX_CODE_CHARS
  · simp [run_code, h1] at h
  · by_cases h2 : oracle.mkdtempFails
    · simp [run_code, h1, h2] at h
    · by_cases h3 : oracle.writeFails
      · simp [run_code, h1, h2, h3] at h
      · rw [run_code_success work oracle req h1 (by simpa using h2)
          (by simpa using h3)] at h
        exact (HandlerOutcome.response.injEq _ _ ▸ h).symm

theorem run_tests_response_inv (work : String) (oracle : TestOracle)
    (req : TestRequest) (resp : TestResponse)
    (h : (run_tests work oracle req).1 = .response resp) :
    resp =
      { ok := (runCmd oracle.outcome).rc = 0
        summary :=
          if (runCmd oracle.outcome).rc = 0 then "tests passed" else "tests failed"
        stdout := _limit (runCmd oracle.outcome).out OUTPUT_LIMIT
        stderr := _limit (runCmd oracle.outcome).err OUTPUT_LIMIT
        exit_code := (runCmd oracle.outcome).rc } := by
  by_cases h1 : req.code.length > MAX_CODE_CHARS ∨ req.tests.length > MAX_CODE_CHARS
  · simp [run_tests, h1] at h
  · by_cases h2 : oracle.mkdtempFails
    · simp [run_tests, h1, h2] at h
    · by_cases h3 : oracle.writeSolutionFails
      · simp [run_tests, h1, h2, h3] at h
      · by_cases h4 : oracle.writeTestsFails
        · simp [run_tests, h1, h2, h3, h4] at h
        · rw [run_tests_success work oracle req h1 (by simpa using h2)
            (by simpa using h3) (by simpa using h4)] at h
          exact (HandlerOutcome.response.injEq _ _ ▸ h).symm

/-! ### Claim theorems -/

/-- C1: on deadline expiry, `runCmd` returns exit code 124, stderr equal
to the fixed string "TIMEOUT" regardless of any partial stderr captured
before the kill (that capture is discarded), and stdout equal to the
partial stdout captured before the kill, empty when none was captured. -/
theorem C1_timeout_result (pout perr : Option String) :
    runCmd (.timedOut pout perr) = ⟨124, pout.getD "", "TIMEOUT"⟩ := rfl

/-- C2 counterexample: a subprocess that terminates on its own with exit
status 124 is reported with exit code 124 as well, so exit code 124 is not
produced only on deadline expiry. -/
theorem C2_counterexample :
    ¬ (∀ o : ProcOutcome, (runCmd o).rc = 124 ↔ o.isTimeout = true) := fun h =>
  absurd ((h (.completed 124 "" "")).mp rfl) (by decide)

/-- C2 (amended): the reported exit code is 124 exactly when the run timed
out or the subprocess itself exited with real status 124; the executor
passes real exit codes through unchanged, so the sentinel is not exclusive
to timeouts. -/
theorem C2_sentinel_iff (o : ProcOutcome) :
    (runCmd o).rc = 124 ↔
      (o.isTimeout = true ∨ ∃ out err, o = .completed 124 out err) := by
  cases o with
  | completed rc out err =>
    constructor
    · intro h
      refine .inr ⟨out, err, ?_⟩
      have : rc = 124 := h
      rw [this]
    · rintro (h | ⟨o, e, h⟩)
      · simp [ProcOutcome.isTimeout] at h
      · cases h; rfl
  | timedOut pout perr => simp [runCmd, ProcOutcome.isTimeout]
  | launchFailed msg => simp [runCmd, ProcOutcome.isTimeout]

/-- C7: any launch-time failure other than a timeout is reported as exit
code 1 with empty stdout and a descriptive "ERROR: ..." message in stderr,
and the handler still returns a well-formed response, never an unhandled
exception, for such an outcome. -/
theorem C7_launch_failure (msg : String) :
    runCmd (.launchFailed msg) = ⟨1, "", "ERROR: " ++ msg⟩ ∧
    (∀ work req, req.code.length ≤ MAX_CODE_CHARS →
      ∃ resp, (run_code work ⟨false, false, .launchFailed msg⟩ req).1
        = .response resp) := by
  refine ⟨rfl, fun work req h => ?_⟩
  rw [run_code_success work ⟨false, false, .launchFailed msg⟩ req
    (not_lt.mpr h) rfl rfl]
  exact ⟨_, rfl⟩

/-- C7 witness: a concrete launch failure is mapped to exit code 1 with the
message in stderr, and the handler returns a response. -/
theorem C7_witness :
    runCmd (.launchFailed "FileNotFoundError") =
      ⟨1, "", "ERROR: FileNotFoundError"⟩ ∧
    ∃ resp, (run_code "/tmp/run-w7"
      ⟨false, false, .launchFailed "FileNotFoundError"⟩
      ⟨"print(1)", none, none⟩).1 = .response resp :=
  ⟨(C7_launch_failure "FileNotFoundError").1,
   (C7_launch_failure "FileNotFoundError").2 "/tmp/run-w7"
     ⟨"print(1)", none, none⟩ (by decide)⟩

/-- C8: with no configured secret (variable absent or empty) the guard
fails with status 503 whatever header the client supplies; with a
configured non-empty secret and a header different from it (a missing
header included) it fails with status 401. -/
theorem C8_auth_statuses (envSecret x_api_key : Option String) :
    (envSecret.getD "" = "" →
      require_api_key envSecret x_api_key = .error ⟨503, "API not configured"⟩) ∧
    (envSecret.getD "" ≠ "" → x_api_key ≠ some (envSecret.getD "") →
      require_api_key envSecret x_api_key
        = .error ⟨401, "Invalid or missing API key"⟩) := by
  constructor
  · intro h
    simp [require_api_key, h]
  · intro h1 h2
    simp [require_api_key, h1, h2]

/-- C8 witness: no configured secret yields 503 even with a header
supplied; a configured secret with a missing header yields 401. -/
theorem C8_witness :
    require_api_key none (some "k") = .error ⟨503, "API not configured"⟩ ∧
    require_api_key (some "secret") none
      = .error ⟨401, "Invalid or missing API key"⟩ :=
  ⟨(C8_auth_statuses none (some "k")).1 rfl,
   (C8_auth_statuses (some "secret") none).2 (by decide) (by decide)⟩

/-- C10: an explicitly null `timeout_sec` coalesces to the default 5; a
validated supplied value (range 1..20) is never altered by the truthiness
coalescing; and in both handlers a request with null `timeout_sec` launches
its subprocess with deadline 5. -/
theorem C10_timeout_default :
    pyOrInt none TIMEOUT_SEC_DEFAULT = 5 ∧
    (∀ v : Int, 1 ≤ v → v ≤ 20 → pyOrInt (some v) TIMEOUT_SEC_DEFAULT = v) ∧
    (∀ work oracle req, req.code.length ≤ MAX_CODE_CHARS →
      oracle.mkdtempFails = false → oracle.writeFails = false →
      req.timeout_sec = none →
      launchTimeouts (run_code work oracle req).2 = [5]) ∧
    (∀ work oracle req,
      ¬ (req.code.length > MAX_CODE_CHARS ∨ req.tests.length > MAX_CODE_CHARS) →
      oracle.mkdtempFails = false → oracle.writeSolutionFails = false →
      oracle.writeTestsFails = false → req.timeout_sec = none →
      launchTimeouts (run_tests work oracle req).2 = [5]) := by
  refine ⟨rfl, fun v h1 h2 => ?_,
    fun work oracle req h hm hw ht => ?_,
    fun work oracle req h hm hw1 hw2 ht => ?_⟩
  · have hv : ¬ v = 0 := by omega
    simp [pyOrInt, hv]
  · rw [run_code_success work oracle req (not_lt.mpr h) hm hw]
    simp [launchTimeouts, ht, pyOrInt, TIMEOUT_SEC_DEFAULT]
  · rw [run_tests_success work oracle req h hm hw1 hw2]
    simp [launchTimeouts, ht, pyOrInt, TIMEOUT_SEC_DEFAULT]

/-- C3: `_limit` at the output ceiling leaves a string of length at most
the ceiling unchanged, and otherwise returns a string of length exactly the
ceiling plus the truncation-marker length, never more; both handlers apply
this truncation to stdout and stderr independently before returning them. -/
theorem C3_output_truncation (s : String) :
    (s.length ≤ OUTPUT_LIMIT → _limit s OUTPUT_LIMIT = s) ∧
    (s.length > OUTPUT_LIMIT →
      (_limit s OUTPUT_LIMIT).length = OUTPUT_LIMIT + truncMarker.length) ∧
    (∀ work oracle req resp, (run_code work oracle req).1 = .response resp →
      resp.stdout = _limit (runCmd oracle.outcome).out OUTPUT_LIMIT ∧
      resp.stderr = _limit (runCmd oracle.outcome).err OUTPUT_LIMIT) ∧
    (∀ work oracle req resp, (run_tests work oracle req).1 = .response resp →
      resp.stdout = _limit (runCmd oracle.outcome).out OUTPUT_LIMIT ∧
      resp.stderr = _limit (runCmd oracle.outcome).err OUTPUT_LIMIT) := by
  refine ⟨fun h => by simp [_limit, h], fun h => ?_,
    fun work oracle req resp h => ?_, fun work oracle req resp h => ?_⟩
  · unfold _limit
    rw [if_neg (not_le.mpr h), String.length_append, length_take_string,
      Nat.min_eq_left (le_of_lt h)]
  · rw [run_code_response_inv work oracle req resp h]
    exact ⟨rfl, rfl⟩
  · rw [run_tests_response_inv work oracle req resp h]
    exact ⟨rfl, rfl⟩

/-- C3 witness: a short string is returned unchanged, a string one past the
ceiling is truncated to exactly ceiling plus marker length, and a concrete
completed run returns the independently truncated streams. -/
theorem C3_witness :
    _limit "hi" OUTPUT_LIMIT = "hi" ∧
    (_limit (String.mk (List.replicate 100001 'a')) OUTPUT_LIMIT).length
      = OUTPUT_LIMIT + truncMarker.length ∧
    ((⟨true, "out", "err", 0⟩ : RunResponse).stdout
        = _limit (runCmd (.completed 0 "out" "err")).out OUTPUT_LIMIT ∧
     (⟨true, "out", "err", 0⟩ : RunResponse).stderr
        = _limit (runCmd (.completed 0 "out" "err")).err OUTPUT_LIMIT) :=
  ⟨(C3_output_truncation "hi").1 (by decide),
   (C3_output_truncation (String.mk (List.replicate 100001 'a'))).2.1
     (by rw [String.length_mk, List.length_replicate]; decide),
   (C3_output_truncation "x").2.2.1 "/w3" ⟨false, false, .completed 0 "out" "err"⟩
     ⟨"print(1)", none, none⟩ ⟨true, "out", "err", 0⟩ (by decide)⟩

/-- C4: whenever a handler invocation creates its workspace directory (its
effect trace contains the mkdtemp effect), the directory is absent from the
filesystem after the handler returns, on every exit path: normal
completion, non-zero exit, timeout, launch failure, and an exception raised
by a file write after creation. -/
theorem C4_workspace_cleanup (work : String) (fs : List String) :
    (∀ oracle req, Effect.mkdtemp work ∈ (run_code work oracle req).2 →
      work ∉ runEffects fs (run_code work oracle req).2) ∧
    (∀ oracle req, Effect.mkdtemp work ∈ (run_tests work oracle req).2 →
      work ∉ runEffects fs (run_tests work oracle req).2) := by
  constructor
  · intro oracle req hmem
    by_cases h1 : req.code.length > MAX_CODE_CHARS
    · simp [run_code, h1] at hmem
    · by_cases h2 : oracle.mkdtempFails
      · simp [run_code, h1, h2] at hmem
      · by_cases h3 : oracle.writeFails
        · have htr : run_code work oracle req
              = (.exn "write failed", [.mkdtemp work, .rmtree work]) := by
            simp [run_code, h1, h2, h3]
          rw [htr]
          exact not_mem_filter_ne (work :: fs) work
        · rw [run_code_success work oracle req h1 (by simpa using h2)
            (by simpa using h3)]
          exact not_mem_filter_ne (work :: fs) work
  · intro oracle req hmem
    by_cases h1 : req.code.length > MAX_CODE_CHARS ∨ req.tests.length > MAX_CODE_CHARS
    · simp [run_tests, h1] at hmem
    · by_cases h2 : oracle.mkdtempFails
      · simp [run_tests, h1, h2] at hmem
      · by_cases h3 : oracle.writeSolutionFails
        · have htr : run_tests work oracle req
              = (.exn "write failed", [.mkdtemp work, .rmtree work]) := by
            simp [run_tests, h1, h2, h3]
          rw [htr]
          exact not_mem_filter_ne (work :: fs) work
        · by_cases h4 : oracle.writeTestsFails
          · have htr : run_tests work oracle req
                = (.exn "write failed",
                   [.mkdtemp work, .writeFile (work ++ "/solution.py") req.code,
                    .rmtree work]) := by
              simp [run_tests, h1, h2, h3, h4]
            rw [htr]
            exact not_mem_filter_ne (work :: fs) work
          · rw [run_tests_success work oracle req h1 (by simpa using h2)
              (by simpa using h3) (by simpa using h4)]
            exact not_mem_filter_ne (work :: fs) work

/-- C4 witness: after concrete successful invocations of both handlers the
workspace directory is absent from the resulting filesystem. -/
theorem C4_witness :
    "/tmp/run-w4" ∉ runEffects [] (run_code "/tmp/run-w4"
      ⟨false, false, .completed 0 "" ""⟩ ⟨"print(1)", none, none⟩).2 ∧
    "/tmp/run-w4" ∉ runEffects [] (run_tests "/tmp/run-w4"
      ⟨false, false, false, .completed 0 "" ""⟩ ⟨"x=1", "assert True", none⟩).2 :=
  ⟨(C4_workspace_cleanup "/tmp/run-w4" []).1 ⟨false, false, .completed 0 "" ""⟩
     ⟨"print(1)", none, none⟩ (by decide),
   (C4_workspace_cleanup "/tmp/run-w4" []).2 ⟨false, false, false, .completed 0 "" ""⟩
     ⟨"x=1", "assert True", none⟩ (by decide)⟩

/-- C5: a returned response has `ok` true exactly when its exit code is 0,
and in test mode the summary is "tests passed" when the exit code is 0 and
"tests failed" otherwise, derived from the exit code alone. -/
theorem C5_ok_iff_exit_zero :
    (∀ work oracle req resp, (run_code work oracle req).1 = .response resp →
      (resp.ok = true ↔ resp.exit_code = 0)) ∧
    (∀ work oracle req resp, (run_tests work oracle req).1 = .response resp →
      ((resp.ok = true ↔ resp.exit_code = 0) ∧
       resp.summary
         = if resp.exit_code = 0 then "tests passed" else "tests failed")) := by
  constructor
  · intro work oracle req resp h
    rw [run_code_response_inv work oracle req resp h]
    simp
  · intro work oracle req resp h
    rw [run_tests_response_inv work oracle req resp h]
    simp

/-- C5 witness: a concrete successful run has ok true with exit code 0, and
a concrete failing test run has ok false with summary "tests failed". -/
theorem C5_witness :
    ((⟨true, "", "", 0⟩ : RunResponse).ok = true ↔
      (⟨true, "", "", 0⟩ : RunResponse).exit_code = 0) ∧
    (((⟨false, "tests failed", "", "boom", 1⟩ : TestResponse).ok = true ↔
       (⟨false, "tests failed", "", "boom", 1⟩ : TestResponse).exit_code = 0) ∧
     (⟨false, "tests failed", "", "boom", 1⟩ : TestResponse).summary
       = if (⟨false, "tests failed", "", "boom", 1⟩ : TestResponse).exit_code = 0
         then "tests passed" else "tests failed") :=
  ⟨C5_ok_iff_exit_zero.1 "/w5" ⟨false, false, .completed 0 "" ""⟩
     ⟨"print(1)", none, none⟩ ⟨true, "", "", 0⟩ (by decide),
   C5_ok_iff_exit_zero.2 "/w5" ⟨false, false, false, .completed 1 "" "boom"⟩
     ⟨"x=1", "assert False", none⟩ ⟨false, "tests failed", "", "boom", 1⟩ (by decide)⟩

/-- C6: an oversized request (code above 20000 characters for the run
handler; code or tests above 20000 for the test handler) is rejected with
HTTP 413 and an empty effect trace: no workspace is created and no
subprocess is launched. -/
theorem C6_oversized_rejected :
    (∀ work oracle req, req.code.length > MAX_CODE_CHARS →
      run_code work oracle req = (.httpError ⟨413, "Code too large"⟩, [])) ∧
    (∀ work oracle req,
      req.code.length > MAX_CODE_CHARS ∨ req.tests.length > MAX_CODE_CHARS →
      run_tests work oracle req
        = (.httpError ⟨413, "Code or tests too large"⟩, [])) := by
  constructor
  · intro work oracle req h
    simp [run_code, h]
  · intro work oracle req h
    simp [run_tests, h]

/-- C6 witness: a request whose code is 20001 characters is rejected with
413 and no effects, in both handlers. -/
theorem C6_witness :
    run_code "/w6" ⟨false, false, .completed 0 "" ""⟩
      ⟨String.mk (List.replicate 20001 'a'), none, none⟩
      = (.httpError ⟨413, "Code too large"⟩, []) ∧
    run_tests "/w6" ⟨false, false, false, .completed 0 "" ""⟩
      ⟨"x=1", String.mk (List.replicate 20001 'a'), none⟩
      = (.httpError ⟨413, "Code or tests too large"⟩, []) :=
  ⟨C6_oversized_rejected.1 "/w6" ⟨false, false, .completed 0 "" ""⟩
     ⟨String.mk (List.replicate 20001 'a'), none, none⟩
     (by rw [String.length_mk, List.length_replicate]; decide),
   C6_oversized_rejected.2 "/w6" ⟨false, false, false, .completed 0 "" ""⟩
     ⟨"x=1", String.mk (List.replicate 20001 'a'), none⟩
     (.inr (by rw [String.length_mk, List.length_replicate]; decide))⟩

/-- C9: the child environment equals the base environment with exactly the
four proxy variables removed: looking up any proxy variable in the child
environment yields nothing, and looking up any other variable yields the
same binding as in the base environment, which is itself left untouched
since the construction is a pure function of the (copied) base map. -/
theorem C9_child_env (base : Env) (k : String) :
    (k ∈ proxyVars → lookupEnv (buildChildEnv base) k = none) ∧
    (k ∉ proxyVars → lookupEnv (buildChildEnv base) k = lookupEnv base k) := by
  constructor
  · intro hk
    rw [buildChildEnv_eq]
    simp only [proxyVars, List.mem_cons, List.not_mem_nil, or_false] at hk
    rcases hk with h | h | h | h <;> subst h
    · rw [lookupEnv_envPop_ne _ _ _ (by decide), lookupEnv_envPop_ne _ _ _ (by decide),
        lookupEnv_envPop_ne _ _ _ (by decide)]
      exact lookupEnv_envPop_self _ _
    · rw [lookupEnv_envPop_ne _ _ _ (by decide), lookupEnv_envPop_ne _ _ _ (by decide)]
      exact lookupEnv_envPop_self _ _
    · rw [lookupEnv_envPop_ne _ _ _ (by decide)]
      exact lookupEnv_envPop_self _ _
    · exact lookupEnv_envPop_self _ _
  · intro hk
    simp only [proxyVars, List.mem_cons, List.not_mem_nil, or_false, not_or] at hk
    obtain ⟨h1, h2, h3, h4⟩ := hk
    rw [buildChildEnv_eq, lookupEnv_envPop_ne _ _ _ h4, lookupEnv_envPop_ne _ _ _ h3,
      lookupEnv_envPop_ne _ _ _ h2, lookupEnv_envPop_ne _ _ _ h1]

/-- C9 witness: in a concrete base environment, the proxy variable is gone
from the child environment and an unrelated variable is unchanged. -/
theorem C9_witness :
    lookupEnv (buildChildEnv [("HTTP_PROXY", "p"), ("PATH", "q")]) "HTTP_PROXY"
      = none ∧
    lookupEnv (buildChildEnv [("HTTP_PROXY", "p"), ("PATH", "q")]) "PATH"
      = lookupEnv [("HTTP_PROXY", "p"), ("PATH", "q")] "PATH" :=
  ⟨(C9_child_env [("HTTP_PROXY", "p"), ("PATH", "q")] "HTTP_PROXY").1 (by decide),
   (C9_child_env [("HTTP_PROXY", "p"), ("PATH", "q")] "PATH").2 (by decide)⟩

/-- C10 witness: a supplied timeout of 7 is kept, and a concrete request
with null `timeout_sec` launches with deadline 5. -/
theorem C10_witness :
    pyOrInt (some 7) TIMEOUT_SEC_DEFAULT = 7 ∧
    launchTimeouts (run_code "/tmp/run-w10"
      ⟨false, false, .completed 0 "" ""⟩ ⟨"print(1)", none, none⟩).2 = [5] :=
  ⟨C10_timeout_default.2.1 7 (by decide) (by decide),
   C10_timeout_default.2.2.1 "/tmp/run-w10" ⟨false, false, .completed 0 "" ""⟩
     ⟨"print(1)", none, none⟩ (by decide) rfl rfl rfl⟩

end CodeRunner
